import Mathlib

/-!
Shallow embedding of the Advent-of-Code harness (jgosmann/aoc) for
verification of its specification.

Conventions used throughout:
* Rust `usize` values are modelled as `Nat`.  Arithmetic that can panic in
  Rust (remainder by zero, subtraction underflow under the overflow-checked
  profile that `cargo test` uses) is modelled explicitly: a construction or
  operation that panics is a `none` / `Except.error` result.
* Byte buffers are `List Nat`; text is the list of decoded Unicode scalar
  values (`List Nat`).
* Asynchronous I/O is modelled by explicit state passing: the cache
  directory is an association list from file names to byte contents, and a
  fetch stream is the list of chunk results it yields.
-/

set_option autoImplicit false

namespace Aoc

/-! ## Grid view (src/datastructures/grid.rs)

`GridView` wraps a flat backing buffer.  `width` is the construction-time
total width including the separator; `pubSize` is `(height, logical width)`
as in the source's `pub_size: (usize, usize)` field.
-/

structure GridView (α : Type) where
  width : Nat
  pubSize : Nat × Nat
  data : List α
deriving DecidableEq, Repr

/-- Model of `GridView::new` (and, with an owned buffer, `GridView::from_vec`
— the two bodies are identical in the source).  `none` models a panic:
either the explicit `panic!("width must be a divisor of total data length")`
guard, or an arithmetic panic (`len % 0`, or `usize` subtraction underflow
when `separator_width + 1 > width`, evaluated in the guard's second operand
only when the first operand is true thanks to `&&` short-circuiting, and in
`pub_size`'s `width - separator_width` afterwards). -/
def GridView.new? {α : Type} (width sepWidth : Nat) (data : List α) :
    Option (GridView α) :=
  if width = 0 then none
  else if data.length % width > 0 ∧ width < sepWidth + 1 then none
  else if data.length % width > 0 ∧ data.length % width < width - sepWidth - 1 then none
  else if width < sepWidth then none
  else some ⟨width, ((data.length + width - 1) / width, width - sepWidth), data⟩

/-- Model of `GridView::from_vec`: the source body is character-for-character
the same check and construction as `GridView::new`. -/
def GridView.from_vec? {α : Type} (width sepWidth : Nat) (data : List α) :
    Option (GridView α) :=
  GridView.new? width sepWidth data

/-- `GridView::width()`: the logical, separator-excluded width
(`pub_size.1` in the source). -/
def GridView.pubWidth {α : Type} (g : GridView α) : Nat :=
  g.pubSize.2

/-- `GridView::height()` (`pub_size.0` in the source). -/
def GridView.pubHeight {α : Type} (g : GridView α) : Nat :=
  g.pubSize.1

/-- Model of `<GridView as Index<(usize, usize)>>::index`: panics
(`none`) when the column reaches the logical width, otherwise indexes the
backing buffer at the flat offset `width * row + col` (which itself panics,
i.e. `none`, when out of bounds of the buffer). -/
def GridView.index? {α : Type} (g : GridView α) (idx : Nat × Nat) : Option α :=
  if g.pubWidth ≤ idx.2 then none
  else g.data.get? (g.width * idx.1 + idx.2)

/-! ### Grid theorems -/

theorem GridView.new_eq_some {α : Type} {width sepWidth : Nat} {data : List α}
    {g : GridView α} (h : GridView.new? width sepWidth data = some g) :
    g.width = width ∧ g.data = data ∧
      g.pubSize = ((data.length + width - 1) / width, width - sepWidth) := by
  unfold GridView.new? at h
  split at h
  · exact absurd h (by simp)
  · split at h
    · exact absurd h (by simp)
    · split at h
      · exact absurd h (by simp)
      · split at h
        · exact absurd h (by simp)
        · cases h
          exact ⟨rfl, rfl, rfl⟩

/-- C1: for a grid accepted by construction and `(row, col)` with
`row < height()` and `col < width()`, grid indexing behaves exactly like
indexing the backing buffer at the flat offset `row * total_width + col`:
whenever either returns an element, both return that same element (and the
abort behaviour on an out-of-bounds flat offset coincides as well). -/
theorem gridview_index_eq_flat {α : Type} (width sepWidth : Nat)
    (data : List α) (g : GridView α)
    (h : GridView.new? width sepWidth data = some g) (row col : Nat)
    (_hrow : row < g.pubHeight) (hcol : col < g.pubWidth) :
    g.index? (row, col) = data.get? (width * row + col) := by
  obtain ⟨hw, hd, _⟩ := GridView.new_eq_some h
  unfold GridView.index?
  rw [if_neg (by omega), hw, hd]

theorem gridview_index_eq_flat_witness :
    GridView.new? 5 2 (List.range 10) = some ⟨5, (2, 3), List.range 10⟩ ∧
      (GridView.mk 5 (2, 3) (List.range 10)).index? (1, 2)
        = (List.range 10).get? (5 * 1 + 2) :=
  ⟨by decide,
   gridview_index_eq_flat 5 2 (List.range 10) ⟨5, (2, 3), List.range 10⟩
     (by decide) 1 2 (by decide) (by decide)⟩

/-- The divisor rule as stated by the specification, read over ordinary
natural numbers: the buffer length leaves a remainder that is positive yet
below the separator tolerance. -/
def lengthRuleViolated (width sepWidth len : Nat) : Prop :=
  len % width > 0 ∧ len % width < width - sepWidth - 1

instance (width sepWidth len : Nat) :
    Decidable (lengthRuleViolated width sepWidth len) := by
  unfold lengthRuleViolated
  infer_instance

/-- C2 (amended): provided `separator_width < width`, construction via
`GridView::new` or `GridView::from_vec` aborts exactly when the divisor
rule is violated, i.e. when `len % width > 0` and
`len % width < width - separator_width - 1`; buffers satisfying the rule
construct successfully. -/
theorem gridview_construction_abort_iff {α : Type} (width sepWidth : Nat)
    (data : List α) (h : sepWidth < width) :
    (GridView.new? width sepWidth data = none ↔
      lengthRuleViolated width sepWidth data.length) ∧
    (GridView.from_vec? width sepWidth data = none ↔
      lengthRuleViolated width sepWidth data.length) := by
  have key : GridView.new? width sepWidth data = none ↔
      lengthRuleViolated width sepWidth data.length := by
    unfold GridView.new? lengthRuleViolated
    rw [if_neg (by omega)]
    rw [if_neg (by omega)]
    constructor
    · intro hnone
      split at hnone
      · assumption
      · rw [if_neg (by omega)] at hnone
        exact absurd hnone (by simp)
    · intro hviol
      rw [if_pos hviol]
  exact ⟨key, key⟩

theorem gridview_construction_abort_iff_witness :
    GridView.new? 5 2 (List.range 11) = none :=
  ((gridview_construction_abort_iff 5 2 (List.range 11) (by decide)).1).mpr
    (by decide)

/-- C2 counterexample to the claim as stated: with `width = 0` the empty
buffer's length (0) is an exact multiple of the width, so the divisor rule
is satisfied, yet construction aborts (in Rust, `data.len() % 0` panics
with a remainder-by-zero error before the guard can evaluate). -/
theorem gridview_construction_zero_width_counterexample :
    GridView.new? 0 0 ([] : List Nat) = none ∧
      ¬ lengthRuleViolated 0 0 (List.length ([] : List Nat)) := by
  constructor
  · rfl
  · decide

/-- C4: indexing with `col >= width()` (the logical, separator-excluded
width) always aborts, for every grid view and row. -/
theorem gridview_index_oob_aborts {α : Type} (g : GridView α) (row col : Nat)
    (h : g.pubWidth ≤ col) : g.index? (row, col) = none := by
  unfold GridView.index?
  rw [if_pos h]

theorem gridview_index_oob_aborts_witness :
    (GridView.mk 5 (2, 3) (List.range 10)).index? (0, 3) = none ∧
      5 * 0 + 3 < (List.range 10).length :=
  ⟨gridview_index_oob_aborts (GridView.mk 5 (2, 3) (List.range 10)) 0 3
     (by decide),
   by decide⟩

/-- C8: over sequential byte buffers of lengths 8, 9 and 10, construction
with `width = 5`, `separator_width = 2` succeeds, reports
`width() = 3`, `height() = 2`, and yields the stated four elements. -/
theorem gridview_end_to_end_3_lengths :
    ((GridView.new? 5 2 (List.range 8)).map fun g =>
        (g.pubHeight, g.pubWidth, g.index? (0, 0), g.index? (0, 2),
          g.index? (1, 0), g.index? (1, 2)))
      = some (2, 3, some 0, some 2, some 5, some 7) ∧
    ((GridView.new? 5 2 (List.range 9)).map fun g =>
        (g.pubHeight, g.pubWidth, g.index? (0, 0), g.index? (0, 2),
          g.index? (1, 0), g.index? (1, 2)))
      = some (2, 3, some 0, some 2, some 5, some 7) ∧
    ((GridView.new? 5 2 (List.range 10)).map fun g =>
        (g.pubHeight, g.pubWidth, g.index? (0, 0), g.index? (0, 2),
          g.index? (1, 0), g.index? (1, 2)))
      = some (2, 3, some 0, some 2, some 5, some 7) := by
  refine ⟨?_, ?_, ?_⟩ <;> rfl

/-! ## Eight-neighbour surround iterator (src/datastructures/iterators.rs)

Rust tuple components `.0`/`.1` correspond to Lean `Prod` components
`.1`/`.2`; a cell is `(row, col)` and a size is `(rows, cols)`.
-/

def TOP : Nat := 0b1000
def RIGHT : Nat := 0b0100
def BOTTOM : Nat := 0b0010
def LEFT : Nat := 0b0001

structure SurroundIterator2d where
  center : Nat × Nat
  sides : Nat
  index : Nat
deriving DecidableEq, Repr

/-- Model of `SurroundIterator2d::new`. -/
def SurroundIterator2d.new (center size : Nat × Nat) : SurroundIterator2d :=
  let top := if center.1 > 0 then TOP else 0
  let bottom := if center.1 < size.1 - 1 then BOTTOM else 0
  let left := if center.2 > 0 then LEFT else 0
  let right := if center.2 < size.2 - 1 then RIGHT else 0
  ⟨center, top ||| right ||| bottom ||| left, 0⟩

/-- Model of `SurroundIterator2d::current`: the candidate neighbour for the
iterator's current index, filtered by the clipped-side bitmask. -/
def SurroundIterator2d.current (s : SurroundIterator2d) : Option (Nat × Nat) :=
  match s.index with
  | 1 =>
    if s.sides &&& TOP ≠ 0 ∧ s.sides &&& LEFT ≠ 0 then
      some (s.center.1 - 1, s.center.2 - 1)
    else none
  | 2 =>
    if s.sides &&& TOP ≠ 0 then some (s.center.1 - 1, s.center.2) else none
  | 3 =>
    if s.sides &&& TOP ≠ 0 ∧ s.sides &&& RIGHT ≠ 0 then
      some (s.center.1 - 1, s.center.2 + 1)
    else none
  | 4 =>
    if s.sides &&& LEFT ≠ 0 then some (s.center.1, s.center.2 - 1) else none
  | 5 =>
    if s.sides &&& RIGHT ≠ 0 then some (s.center.1, s.center.2 + 1) else none
  | 6 =>
    if s.sides &&& BOTTOM ≠ 0 ∧ s.sides &&& LEFT ≠ 0 then
      some (s.center.1 + 1, s.center.2 - 1)
    else none
  | 7 =>
    if s.sides &&& BOTTOM ≠ 0 then some (s.center.1 + 1, s.center.2) else none
  | 8 =>
    if s.sides &&& BOTTOM ≠ 0 ∧ s.sides &&& RIGHT ≠ 0 then
      some (s.center.1 + 1, s.center.2 + 1)
    else none
  | _ => none

/-- Model of `<SurroundIterator2d as Iterator>::next`, with explicit fuel in
place of the source's `while self.index < 9` loop; since `index` increases
by one per iteration and the loop stops at 9, fuel 9 covers every reachable
state. -/
def SurroundIterator2d.nextFuel :
    Nat → SurroundIterator2d → Option ((Nat × Nat) × SurroundIterator2d)
  | 0, _ => none
  | fuel + 1, s =>
    if s.index < 9 then
      let s2 : SurroundIterator2d := ⟨s.center, s.sides, s.index + 1⟩
      match s2.current with
      | some c => some (c, s2)
      | none => SurroundIterator2d.nextFuel fuel s2
    else none

def SurroundIterator2d.next (s : SurroundIterator2d) :
    Option ((Nat × Nat) × SurroundIterator2d) :=
  SurroundIterator2d.nextFuel 9 s

/-- Draining the iterator into a list, as `Iterator::collect` does; fuel 9
suffices because at most eight items are ever yielded. -/
def SurroundIterator2d.collect : Nat → SurroundIterator2d → List (Nat × Nat)
  | 0, _ => []
  | fuel + 1, s =>
    match s.next with
    | none => []
    | some (c, s2) => c :: SurroundIterator2d.collect fuel s2

/-- Modelled from the spec's words, for comparison with the source-derived
iterator: the eight neighbour offsets in row-major order over the 3×3
neighbourhood (centre skipped), clipped to the grid bounds. -/
def rowMajorSurround (center size : Nat × Nat) : List (Nat × Nat) :=
  [((-1 : Int), (-1 : Int)), (-1, 0), (-1, 1), (0, -1), (0, 1),
      (1, -1), (1, 0), (1, 1)].filterMap fun o =>
    let r : Int := (center.1 : Int) + o.1
    let c : Int := (center.2 : Int) + o.2
    if 0 ≤ r ∧ r < (size.1 : Int) ∧ 0 ≤ c ∧ c < (size.2 : Int) then
      some (r.toNat, c.toNat)
    else none

def cells3x3 : List (Nat × Nat) :=
  [(0, 0), (0, 1), (0, 2), (1, 0), (1, 1), (1, 2), (2, 0), (2, 1), (2, 2)]

/-- C5: on a 3×3 grid the surround iterator yields, for every centre cell,
exactly the in-bounds neighbours in row-major order over the 3×3
neighbourhood (centre skipped); the yield counts are 3 for the four
corners, 5 for the four non-corner edge cells and 8 for the interior
cell, and every yielded coordinate is in bounds. -/
theorem surround_iterator_3x3 :
    (cells3x3.map fun c =>
        SurroundIterator2d.collect 9 (SurroundIterator2d.new c (3, 3)))
      = cells3x3.map (fun c => rowMajorSurround c (3, 3)) ∧
    (cells3x3.map fun c =>
        (SurroundIterator2d.collect 9 (SurroundIterator2d.new c (3, 3))).length)
      = [3, 5, 3, 5, 8, 5, 3, 5, 3] ∧
    (cells3x3.all fun c =>
        (SurroundIterator2d.collect 9 (SurroundIterator2d.new c (3, 3))).all
          fun p => Nat.blt p.1 3 && Nat.blt p.2 3)
      = true := by
  refine ⟨?_, ?_, ?_⟩ <;> rfl

/-! ## Solutions and solvers (src/solvers/mod.rs)

`Solution` in the source is a struct with a static description and a
solution string, built by the sole constructor `with_description`; solver
methods return `anyhow::Result<Solution>`, modelled as
`Except String Solution`.
-/

structure Solution where
  description : String
  solution : String
deriving DecidableEq, Repr

def Solution.with_description (d s : String) : Solution :=
  ⟨d, s⟩

/-- Model of `SolverImpl::solve_part_2` from the template-generated
`solvers/year2024/src/solvers/year2024/day23.rs`: the not-yet-implemented
part 2 reports the ordinary solution string `"not implemented"`. -/
def templateDay23SolvePart2 : Except String Solution :=
  Except.ok (Solution.with_description "Part 2" "not implemented")

/-- C9 counterexample: the not-yet-implemented part-2 report is the result
of the ordinary `Solution::with_description` constructor — the very value a
computed answer with the same text would be — so it is not distinguishable
in the type of `solve_part_2`'s successful result. -/
theorem solution_not_implemented_is_ordinary :
    templateDay23SolvePart2
      = Except.ok (Solution.with_description "Part 2" "not implemented") :=
  rfl

/-- C9 (amended): a solver without a part-2 solution reports it through an
ordinary `Solution` value whose solution string is `"not implemented"`;
`Solution` is a single-constructor record of a description and a solution
string, so every `Solution` — the not-implemented report included — is an
application of `with_description`, and no dedicated variant distinguishes
the report from a computed answer. -/
theorem solution_single_constructor :
    templateDay23SolvePart2
        = Except.ok (Solution.with_description "Part 2" "not implemented") ∧
      ∀ sol : Solution,
        sol = Solution.with_description sol.description sol.solution :=
  ⟨rfl, fun _ => rfl⟩

/-! ## Day/year dispatch (solver-dispatch/src/lib.rs)

The `solver_dispatch!` proc macro scans `src/solvers/year<Y>/day<D>.rs`
at compile time and emits a `match` over `(year, day)` literal pairs, one
arm per module found, with the default arm producing the error
`"no solver for day {} of year {}"`.  In this snapshot of the repository
the scan finds days 1–25 of 2023 and 2024 and days 1–12 of 2025 (the
nested `year2024/src` entry is a directory and the scan keeps plain
`day<D>.rs` files only).  The per-day constructor
(`SolverImpl::new(&input)?`, whose failure the `?` propagates) is
abstracted as the `new` parameter.
-/

def solverTable : List (Int × Nat) :=
  ((List.range 25).map fun d => ((2023 : Int), d + 1)) ++
    ((List.range 25).map fun d => ((2024 : Int), d + 1)) ++
    ((List.range 12).map fun d => ((2025 : Int), d + 1))

/-- Model of the `match` emitted by `solver_dispatch!`: a registered
`(year, day)` pair runs that day's solver constructor on the input; any
other pair produces the descriptive dispatch error. -/
def solver_dispatch {α : Type} (new : Int → Nat → String → Except String α)
    (input : String) (year : Int) (day : Nat) : Except String α :=
  if (year, day) ∈ solverTable then new year day input
  else
    Except.error
      ("no solver for day " ++ toString day ++ " of year " ++ toString year)

/-- C7: dispatch for a `(year, day)` with no matching solver module returns
the error `"no solver for day D of year Y"` with the requested day and
year substituted; for every registered pair it runs that day's solver
constructor, so a successfully constructed solver is returned whenever
construction succeeds. -/
theorem solver_dispatch_spec {α : Type}
    (new : Int → Nat → String → Except String α) (input : String)
    (year : Int) (day : Nat) :
    ((year, day) ∉ solverTable →
      solver_dispatch new input year day
        = Except.error
            ("no solver for day " ++ toString day ++ " of year "
              ++ toString year)) ∧
    ((year, day) ∈ solverTable →
      solver_dispatch new input year day = new year day input) := by
  constructor
  · intro h
    unfold solver_dispatch
    rw [if_neg h]
  · intro h
    unfold solver_dispatch
    rw [if_pos h]

def demoConstruct : Int → Nat → String → Except String Unit :=
  fun _ _ _ => Except.ok ()

theorem solver_dispatch_spec_witness :
    solver_dispatch demoConstruct "input" 2022 1
        = Except.error "no solver for day 1 of year 2022" ∧
      solver_dispatch demoConstruct "input" 2024 23
        = demoConstruct 2024 23 "input" :=
  ⟨(solver_dispatch_spec demoConstruct "input" 2022 1).1 (by decide),
   (solver_dispatch_spec demoConstruct "input" 2024 23).2 (by decide)⟩

/-! ## File cache (src/cache.rs) and input keys (src/main.rs)

The cache directory is an association list from file names to byte
contents.  A fetch function resolves to either an error (the failed
future) or the list of chunk results its byte stream yields.  Filesystem
primitives themselves (`File::create`, `read`) are assumed to succeed, as
the claims under consideration only exercise stream-side failures; the
fetch-invocation count is returned alongside the new filesystem state.
-/

/-- Model of `std::str::from_utf8` / `String::from_utf8` validation and
decoding: strict UTF-8 (continuation bytes `0x80..=0xBF`, no overlong
forms, no surrogates, at most `U+10FFFF`), yielding the Unicode scalar
values. -/
def utf8Decode : List Nat → Option (List Nat)
  | [] => some []
  | b :: rest =>
    if b < 0x80 then (utf8Decode rest).map fun t => b :: t
    else if 0xC2 ≤ b ∧ b ≤ 0xDF then
      match rest with
      | c1 :: rest2 =>
        if 0x80 ≤ c1 ∧ c1 ≤ 0xBF then
          (utf8Decode rest2).map fun t => ((b - 0xC0) * 64 + (c1 - 0x80)) :: t
        else none
      | [] => none
    else if 0xE0 ≤ b ∧ b ≤ 0xEF then
      match rest with
      | c1 :: c2 :: rest2 =>
        if 0x80 ≤ c1 ∧ c1 ≤ 0xBF ∧ 0x80 ≤ c2 ∧ c2 ≤ 0xBF then
          let cp := (b - 0xE0) * 4096 + (c1 - 0x80) * 64 + (c2 - 0x80)
          if 0x800 ≤ cp ∧ ¬(0xD800 ≤ cp ∧ cp ≤ 0xDFFF) then
            (utf8Decode rest2).map fun t => cp :: t
          else none
        else none
      | _ => none
    else if 0xF0 ≤ b ∧ b ≤ 0xF4 then
      match rest with
      | c1 :: c2 :: c3 :: rest2 =>
        if 0x80 ≤ c1 ∧ c1 ≤ 0xBF ∧ 0x80 ≤ c2 ∧ c2 ≤ 0xBF ∧
            0x80 ≤ c3 ∧ c3 ≤ 0xBF then
          let cp := (b - 0xF0) * 262144 + (c1 - 0x80) * 4096 +
            (c2 - 0x80) * 64 + (c3 - 0x80)
          if 0x10000 ≤ cp ∧ cp ≤ 0x10FFFF then
            (utf8Decode rest2).map fun t => cp :: t
          else none
        else none
      | _ => none
    else none

/-- `String::from_utf8(input)?`: decoding failure surfaces as an error. -/
def from_utf8 (bytes : List Nat) : Except String (List Nat) :=
  match utf8Decode bytes with
  | some t => Except.ok t
  | none => Except.error "invalid utf-8 sequence"

abbrev Fs := List (String × List Nat)

/-- Look a file up in the cache directory (`path.exists()` plus reading). -/
def fsFind : Fs → String → Option (List Nat)
  | [], _ => none
  | (n, c) :: rest, p => if n = p then some c else fsFind rest p

/-- Write a file: `File::create` truncates an existing file or creates a
new one, and the subsequent writes leave it holding `content`. -/
def fsSet : Fs → String → List Nat → Fs
  | [], p, content => [(p, content)]
  | (n, c) :: rest, p, content =>
    if n = p then (p, content) :: rest else (n, c) :: fsSet rest p content

/-- The `while let Some(bytes) = source.next()` loop of
`FileCache::populate`: successive `Ok` chunks are appended to the file;
the first `Err` chunk stops the loop (via `?`), leaving the bytes already
written in place. -/
def writeChunks :
    List (Except String (List Nat)) → List Nat × Option String
  | [] => ([], none)
  | Except.ok b :: rest =>
    let r := writeChunks rest
    (b ++ r.1, r.2)
  | Except.error e :: _ => ([], some e)

/-- Model of `FileCache::populate`: await the fetch (its failure leaves the
filesystem untouched, since `File::create` only runs afterwards), create
the file, then stream chunks into it. -/
def FileCache.populate {κ : Type}
    (fetch : κ → Except String (List (Except String (List Nat))))
    (key : κ) (path : String) (fs : Fs) : Fs × Except String Unit :=
  match fetch key with
  | Except.error e => (fs, Except.error e)
  | Except.ok source =>
    (fsSet fs path (writeChunks source).1,
      match (writeChunks source).2 with
      | none => Except.ok ()
      | some e => Except.error e)

/-- `tokio::fs::read` followed by `String::from_utf8`, as at the end of
`FileCache::get`. -/
def readAndDecode (fs : Fs) (path : String) : Except String (List Nat) :=
  match fsFind fs path with
  | some bytes => from_utf8 bytes
  | none => Except.error ("read from " ++ path)

/-- Model of `FileCache::get`: serialize the key to a path (`path_for_key`,
written inline here), populate on a miss (propagating its error with `?`),
then read the file back and decode it.  The middle component counts fetch
invocations (`populate` calls the fetch function exactly once, first
thing). -/
def FileCache.get {κ : Type}
    (fetch : κ → Except String (List (Except String (List Nat))))
    (ser : κ → String) (fs : Fs) (key : κ) :
    Fs × Nat × Except String (List Nat) :=
  if (fsFind fs (ser key)).isSome then (fs, 0, readAndDecode fs (ser key))
  else
    match FileCache.populate fetch key (ser key) fs with
    | (fs2, Except.error e) => (fs2, 1, Except.error e)
    | (fs2, Except.ok _) => (fs2, 1, readAndDecode fs2 (ser key))

/-- Model of `format!("{:0w}", n)` for a non-negative integer: left-pad
the decimal representation with zeros to the given total width. -/
def natPadZeros (w n : Nat) : String :=
  String.mk (List.replicate (w - (toString n).length) '0') ++ toString n

/-- Model of `format!("{:0w}", n)` for `i32`: Rust places the sign before
the zero padding and pads to the total width. -/
def intPadZeros (w : Nat) (n : Int) : String :=
  if n < 0 then
    "-" ++ String.mk
        (List.replicate (w - 1 - (toString n.natAbs).length) '0')
      ++ toString n.natAbs
  else natPadZeros w n.toNat

structure InputKey where
  year : Int
  day : Nat
deriving DecidableEq, Repr

/-- Model of `<InputKey as cache::Key>::serialize`:
`format!("{:04}-{:02}", self.year, self.day)`. -/
def InputKey.serialize (k : InputKey) : String :=
  intPadZeros 4 k.year ++ "-" ++ natPadZeros 2 k.day

/-! ### Cache lemmas -/

theorem fsFind_fsSet_self (fs : Fs) (p : String) (c : List Nat) :
    fsFind (fsSet fs p c) p = some c := by
  induction fs with
  | nil => simp [fsSet, fsFind]
  | cons hd tl ih =>
    obtain ⟨n, c0⟩ := hd
    by_cases hn : n = p
    · simp [fsSet, fsFind, hn]
    · simp [fsSet, fsFind, hn, ih]

theorem fsFind_fsSet_other (fs : Fs) (p q : String) (c : List Nat)
    (h : q ≠ p) : fsFind (fsSet fs p c) q = fsFind fs q := by
  have hpq : ¬ p = q := fun hpq => h hpq.symm
  induction fs with
  | nil => simp [fsSet, fsFind, hpq]
  | cons hd tl ih =>
    obtain ⟨n, c0⟩ := hd
    by_cases hn : n = p
    · subst hn
      simp [fsSet, fsFind, hpq]
    · by_cases hq : n = q <;> simp [fsSet, fsFind, hn, hq, hpq, h, ih]

theorem writeChunks_all_ok (chunks : List (List Nat)) :
    writeChunks (chunks.map Except.ok) = (chunks.flatten, none) := by
  induction chunks with
  | nil => rfl
  | cons hd tl ih => simp [writeChunks, ih]

theorem writeChunks_stops_at_error (chunks : List (List Nat)) (e : String)
    (rest : List (Except String (List Nat))) :
    writeChunks (chunks.map Except.ok ++ Except.error e :: rest)
      = (chunks.flatten, some e) := by
  induction chunks with
  | nil => rfl
  | cons hd tl ih => simp [writeChunks, ih]

/-! ### Cache theorems -/

theorem populate_ok_creates_file {κ : Type}
    (fetch : κ → Except String (List (Except String (List Nat))))
    (key : κ) (path : String) (fs fs3 : Fs) (u : Unit)
    (hpop : FileCache.populate fetch key path fs = (fs3, Except.ok u)) :
    ∃ content, fsFind fs3 path = some content := by
  unfold FileCache.populate at hpop
  cases hf : fetch key with
  | error e =>
    rw [hf] at hpop
    exact absurd hpop (by simp)
  | ok source =>
    rw [hf] at hpop
    have hfs3 : fsSet fs path (writeChunks source).1 = fs3 := by
      have := congrArg Prod.fst hpop
      simpa using this
    exact ⟨(writeChunks source).1, by rw [← hfs3, fsFind_fsSet_self]⟩

/-- C3: when a call to `FileCache::get` succeeds, a repeated call for the
same key performs zero further fetch invocations and returns identical
content (leaving the cache directory unchanged); moreover, if the key had
no cache entry before the first call, that call fetched exactly once. -/
theorem filecache_get_idempotent {κ : Type}
    (fetch : κ → Except String (List (Except String (List Nat))))
    (ser : κ → String) (fs fs2 : Fs) (key : κ) (n : Nat) (t : List Nat)
    (h : FileCache.get fetch ser fs key = (fs2, n, Except.ok t)) :
    FileCache.get fetch ser fs2 key = (fs2, 0, Except.ok t) ∧
      (fsFind fs (ser key) = none → n = 1) := by
  unfold FileCache.get at h
  cases hex : fsFind fs (ser key) with
  | some c =>
    rw [hex] at h
    simp only [Option.isSome_some, if_true, Prod.mk.injEq] at h
    obtain ⟨hfs, hn, hr⟩ := h
    subst hfs
    constructor
    · unfold FileCache.get
      rw [hex]
      simp only [Option.isSome_some, if_true, hr]
    · intro habs
      exact absurd habs (by simp [hex])
  | none =>
    rw [hex] at h
    simp only [Option.isSome_none, Bool.false_eq_true, if_false] at h
    cases hpop : FileCache.populate fetch key (ser key) fs with
    | mk fs3 r =>
      rw [hpop] at h
      cases r with
      | error e =>
        simp only [Prod.mk.injEq] at h
        exact absurd h.2.2 (by simp)
      | ok u =>
        simp only [Prod.mk.injEq] at h
        obtain ⟨hfs, hn, hr⟩ := h
        subst hfs
        obtain ⟨content, hc⟩ :=
          populate_ok_creates_file fetch key (ser key) fs fs3 u hpop
        refine ⟨?_, fun _ => hn.symm⟩
        unfold FileCache.get
        rw [hc]
        simp only [Option.isSome_some, if_true, hr]

def demoFetchOk : Unit → Except String (List (Except String (List Nat))) :=
  fun _ => Except.ok [Except.ok [104], Except.ok [105]]

def demoSer : Unit → String :=
  fun _ => "k"

theorem filecache_get_idempotent_witness :
    FileCache.get demoFetchOk demoSer [("k", [104, 105])] ()
        = ([("k", [104, 105])], 0, Except.ok [104, 105]) ∧
      (fsFind ([] : Fs) (demoSer ()) = none → 1 = 1) :=
  filecache_get_idempotent demoFetchOk demoSer [] [("k", [104, 105])] () 1
    [104, 105] rfl

/-- C6: on a cache miss, `get` performs one fetch, creates exactly one
file — named by the key's serialization, which for the puzzle key
`(2022, 11)` is the zero-padded string `"2022-11"` — whose contents are
the concatenation of the stream's byte chunks, and returns exactly those
bytes decoded as UTF-8 text. -/
theorem filecache_get_miss_populates {κ : Type}
    (fetch : κ → Except String (List (Except String (List Nat))))
    (ser : κ → String) (fs : Fs) (key : κ) (chunks : List (List Nat))
    (text : List Nat)
    (habsent : fsFind fs (ser key) = none)
    (hfetch : fetch key = Except.ok (chunks.map Except.ok))
    (hdecode : utf8Decode chunks.flatten = some text) :
    FileCache.get fetch ser fs key
        = (fsSet fs (ser key) chunks.flatten, 1, Except.ok text) ∧
      fsFind (fsSet fs (ser key) chunks.flatten) (ser key) = some chunks.flatten ∧
      (∀ q, q ≠ ser key →
        fsFind (fsSet fs (ser key) chunks.flatten) q = fsFind fs q) ∧
      InputKey.serialize ⟨2022, 11⟩ = "2022-11" := by
  refine ⟨?_, fsFind_fsSet_self fs (ser key) chunks.flatten,
    fun q hq => fsFind_fsSet_other fs (ser key) q chunks.flatten hq, rfl⟩
  unfold FileCache.get FileCache.populate
  rw [habsent, hfetch]
  simp only [Option.isSome_none, Bool.false_eq_true, if_false,
    writeChunks_all_ok]
  simp [readAndDecode, from_utf8, fsFind_fsSet_self, hdecode]

def demoFetchInput :
    InputKey → Except String (List (Except String (List Nat))) :=
  fun _ => Except.ok [Except.ok [104], Except.ok [105]]

theorem filecache_get_miss_populates_witness :
    FileCache.get demoFetchInput InputKey.serialize [] ⟨2022, 11⟩
        = (fsSet [] (InputKey.serialize ⟨2022, 11⟩) [104, 105], 1,
            Except.ok [104, 105]) ∧
      fsFind (fsSet [] (InputKey.serialize ⟨2022, 11⟩) [104, 105])
          (InputKey.serialize ⟨2022, 11⟩)
        = some [104, 105] ∧
      (∀ q, q ≠ InputKey.serialize ⟨2022, 11⟩ →
        fsFind (fsSet [] (InputKey.serialize ⟨2022, 11⟩) [104, 105]) q
          = fsFind [] q) ∧
      InputKey.serialize ⟨2022, 11⟩ = "2022-11" :=
  filecache_get_miss_populates demoFetchInput InputKey.serialize []
    ⟨2022, 11⟩ [[104], [105]] [104, 105] rfl rfl rfl

/-- C10: when the fetch stream errors after some chunks, `get` returns the
error but the partially written file stays in the cache directory; a
subsequent `get` for the same key finds the file, performs no fetch, and
returns the truncated content as a success — the error is not
re-signalled. -/
theorem filecache_get_stream_error_persists {κ : Type}
    (fetch : κ → Except String (List (Except String (List Nat))))
    (ser : κ → String) (fs : Fs) (key : κ) (chunks : List (List Nat))
    (e : String) (rest : List (Except String (List Nat))) (text : List Nat)
    (habsent : fsFind fs (ser key) = none)
    (hfetch : fetch key
      = Except.ok (chunks.map Except.ok ++ Except.error e :: rest))
    (hdecode : utf8Decode chunks.flatten = some text) :
    FileCache.get fetch ser fs key
        = (fsSet fs (ser key) chunks.flatten, 1, Except.error e) ∧
      FileCache.get fetch ser (fsSet fs (ser key) chunks.flatten) key
        = (fsSet fs (ser key) chunks.flatten, 0, Except.ok text) := by
  constructor
  · unfold FileCache.get FileCache.populate
    rw [habsent, hfetch]
    simp only [Option.isSome_none, Bool.false_eq_true, if_false,
      writeChunks_stops_at_error]
  · unfold FileCache.get
    rw [fsFind_fsSet_self]
    simp only [Option.isSome_some, if_true]
    simp [readAndDecode, from_utf8, fsFind_fsSet_self, hdecode]

def demoFetchErr : Unit → Except String (List (Except String (List Nat))) :=
  fun _ => Except.ok [Except.ok [104, 105], Except.error "boom"]

theorem filecache_get_stream_error_persists_witness :
    FileCache.get demoFetchErr demoSer [] ()
        = (fsSet [] (demoSer ()) [104, 105], 1, Except.error "boom") ∧
      FileCache.get demoFetchErr demoSer (fsSet [] (demoSer ()) [104, 105]) ()
        = (fsSet [] (demoSer ()) [104, 105], 0, Except.ok [104, 105]) :=
  filecache_get_stream_error_persists demoFetchErr demoSer [] ()
    [[104, 105]] "boom" [] [104, 105] rfl rfl rfl

end Aoc
